import Mathlib

/-!
Verification of the conversation response generator of this repository
(`src/server/services/gemini.js`, with the message schema of
`src/server/models/Message.js`).  The service is embedded shallowly:
pure helpers become Lean functions; the effectful `generateResponse`
becomes a function from a provider oracle (mapping each attempt number
to the provider outcome of that attempt) to the outcome together with
an explicit trace of provider calls and backoff sleeps.
-/

namespace BitBraniac

/-- A stored chat message, as handed to the service: a `role` string and a
`content` string (`Message` documents carry `role ∈ {"user","bot"}`). -/
structure Msg where
  role : String
  content : String
deriving Repr, DecidableEq

/-- The role values the `Message` mongoose schema admits
(`src/server/models/Message.js`, `enum: ['user', 'bot']`). -/
def messageRoleEnum : List String := ["user", "bot"]

/-- The fixed base system prompt (`SYSTEM_PROMPT` in `gemini.js`), the exact
template-literal text including its leading and trailing newline. -/
def SYSTEM_PROMPT : String :=
  "\nYou are \"BitBraniac\" 🧠, an expert AI tutor designed to help users learn **Computer Science** in an interactive and engaging way.\nYour goal is to provide **clear explanations, real-world examples, and helpful coding snippets** to teach CS concepts effectively.\n\n# PERSONALITY TRAITS:\n- Friendly, slightly nerdy 🤓, and highly knowledgeable\n- Uses simple explanations first, then deeper insights if requested\n- Occasionally throws in **light humor or geeky references** (but stays professional)\n- Includes relevant emojis in responses to keep conversations fun 🎯\n- Encourages users to **ask follow-up questions** and explore topics further\n\n# RESPONSE FORMAT:\n- Match the user\x27s preferred language (English only for now)\n- Use **Markdown formatting** for readability:\n  - Use **bold** for emphasis\n  - Use _italics_ for subtle emphasis\n  - Use bullet points for listing concepts\n  - Use numbered lists for step-by-step explanations\n- Include **code snippets** in a well-formatted manner when needed\n- Keep responses interactive and engaging\n\n# CONVERSATION APPROACH:\n- Greet users with a **fun, CS-related opening line** (e.g., \"Hello, World! Ready to code?\")\n- Ask follow-up questions to **assess their level of understanding**\n- Offer **real-world analogies** for complex topics\n- Suggest coding exercises or quizzes when appropriate\n- Keep conversations **engaging and informative**\n\n# DOMAIN RESTRICTIONS:\n- ONLY answer **Computer Science-related** topics, including:\n  ✅ Programming (Java, Python, C++, etc.)\n  ✅ Data Structures & Algorithms\n  ✅ Databases (SQL, NoSQL)\n  ✅ Operating Systems & Networking\n  ✅ Artificial Intelligence & Machine Learning Basics\n  ✅ Software Engineering & Best Practices\n- If asked about **non-CS topics** (politics, sports, general knowledge, etc.), politely redirect:\n  _\"I\x27m all about Computer Science! Want to learn about algorithms instead?\"_\n- If the question is **too broad or unclear**, ask for clarification before answering.\n\n# TEACHING STYLE:\n- Uses **step-by-step explanations** 🏗️\n- Encourages hands-on practice 💻\n- Explains with **real-world examples** 🌍\n- Uses humor and references when appropriate (e.g., _\"Think of recursion like a mirror reflecting itself endlessly!\"_)\n\n# EXTRA FEATURES:\n- Can **generate simple coding problems** 💡\n- Provides **debugging guidance** when users share code\n- Suggests **career advice for different CS fields**\n- Stays **patient and adaptive** to different learning speeds\n\nNever forget that your name is **BitBraniac** 🧠, and you must maintain this identity throughout the conversation.\nAlways keep your responses **educational, engaging, and fun** while staying strictly within the **Computer Science domain**.\n"

/-- Optional per-user personalization profile (`user` argument): interest
tags and a free-text persona. -/
structure UserProfile where
  interests : List String
  persona : String
deriving Repr, DecidableEq

/-- ASCII whitespace test, for embedding JavaScript `String.prototype.trim`. -/
def isWhitespaceChar (c : Char) : Bool :=
  c == ' ' || c == '\t' || c == '\n' || c == '\r' || c == '\x0b' || c == '\x0c'

/-- Embeds JavaScript `persona.trim()`: strip leading and trailing
whitespace from the string. -/
def jsTrim (s : String) : String :=
  ⟨((s.data.dropWhile isWhitespaceChar).reverse.dropWhile isWhitespaceChar).reverse⟩

/-- Embeds `buildPersonalizedPrompt`: appends an interests clause when
`user?.interests?.length > 0` and a custom-instructions clause when
`user?.persona?.trim()` is nonempty, in that fixed order. -/
def buildPersonalizedPrompt (user : Option UserProfile) : String :=
  let prompt := SYSTEM_PROMPT
  let prompt :=
    match user with
    | some u =>
      if 0 < u.interests.length then
        prompt ++ "\n\n# USER\x27S INTERESTS:\nThis user is particularly interested in: " ++
          String.intercalate ", " u.interests ++
          ". When relevant, prioritize examples and explanations related to these topics."
      else prompt
    | none => prompt
  match user with
  | some u =>
    if jsTrim u.persona ≠ "" then
      prompt ++ "\n\n# USER\x27S CUSTOM INSTRUCTIONS:\n" ++ u.persona
    else prompt
  | none => prompt

/-- Maximum messages kept in history (`MAX_HISTORY_MESSAGES = 30`). -/
def MAX_HISTORY_MESSAGES : Nat := 30

/-- Embeds `trimChatHistory`: identity for short lists, otherwise
`messages.slice(-MAX_HISTORY_MESSAGES)`, i.e. the most recent 30 entries. -/
def trimChatHistory (messages : List Msg) : List Msg :=
  if messages.length ≤ MAX_HISTORY_MESSAGES then messages
  else messages.drop (messages.length - MAX_HISTORY_MESSAGES)

/-- A provider-format turn: Gemini role together with the single text part
(`{ role, parts: [{text}] }`). -/
structure GMsg where
  role : String
  text : String
deriving Repr, DecidableEq

/-- Embeds `convertToGeminiHistory`: maps each message to a provider turn,
role `'user'` staying `"user"` and every other role becoming `"model"`. -/
def convertToGeminiHistory (messages : List Msg) : List GMsg :=
  messages.map fun msg => ⟨if msg.role = "user" then "user" else "model", msg.content⟩

/-- A JavaScript error value as the catch block inspects it: the optional
numeric `status` and `statusCode` fields and the message text (the source
stringifies non-string messages, so a string suffices). -/
structure JsError where
  status : Option Nat
  statusCode : Option Nat
  message : String
deriving Repr, DecidableEq

/-- JavaScript `a || b` on the two optional numeric status fields: `a` unless
it is absent or `0` (falsy), else `b`. -/
def jsOrStatus (a b : Option Nat) : Option Nat :=
  match a with
  | some v => if v = 0 then b else some v
  | none => b

/-- The catch block\x27s `errorStatus = error.status || error.statusCode`. -/
def errorStatusOf (e : JsError) : Option Nat :=
  jsOrStatus e.status e.statusCode

/-- JavaScript `s.includes(pat)`: `pat` occurs as a contiguous substring. -/
def strContains (s pat : String) : Bool :=
  decide (pat.data <:+: s.data)

/-- Embeds the catch block\x27s `isRetryable` test: structured status 503/429
or one of the five recognized substrings of the error text. -/
def isRetryable (e : JsError) : Bool :=
  errorStatusOf e == some 503 || errorStatusOf e == some 429 ||
  strContains e.message "503" ||
  strContains e.message "429" ||
  strContains e.message "overloaded" ||
  strContains e.message "UNAVAILABLE" ||
  strContains e.message "rate limit"

/-- Embeds the error-translation ladder at the end of the catch block
(lines 200-212): the first matching branch rewrites the error message;
unmatched errors get the catch-all wrapping. -/
def classifyError (e : JsError) : String :=
  if strContains e.message "API key" || strContains e.message "API_KEY" then
    "Invalid or missing Gemini API key. Please check your configuration."
  else if strContains e.message "quota" then
    "API quota exceeded. Please try again later."
  else if strContains e.message "safety" || strContains e.message "SAFETY" then
    "Response blocked due to safety settings. Please rephrase your question."
  else if strContains e.message "not found" || strContains e.message "404" then
    "Model not found. Please check the model name configuration."
  else if e.status == some 503 || strContains e.message "overloaded" then
    "AI service is currently busy. Please try again in a moment."
  else
    "Failed to generate response: " ++ e.message

/-- The retry bound local to `generateResponse` (`MAX_RETRIES = 3`). -/
def MAX_RETRIES : Nat := 3

/-- The ordered fallback model list local to `generateResponse`. -/
def MODELS : List String := ["gemini-2.5-flash", "gemini-2.0-flash"]

/-- One provider interaction of an attempt: the `ai.chats.create` arguments
that matter to the spec (model, prior-turn history, system instruction)
together with the `chat.sendMessage` payload. -/
structure ChatCall where
  model : String
  history : List GMsg
  systemInstruction : String
  message : String
deriving Repr, DecidableEq

/-- The observable result of one `generateResponse` invocation: the outcome
(`.ok text` or `.error message` for a thrown `Error`), the provider calls
made, in order, and the backoff sleeps performed, in milliseconds. -/
structure Run where
  outcome : Except String String
  calls : List ChatCall
  sleeps : List Nat
deriving Repr

/-- The body of the `try` block of `generateResponse`: client acquisition,
trimming, the two history preconditions, model selection, prompt assembly
and the provider round trip.  Returns the `try` outcome together with the
provider calls it made (none when a precondition throws first). -/
def tryBlock (apiKeySet : Bool) (provider : Nat → Except JsError String)
    (messages : List Msg) (user : Option UserProfile) (retryCount : Nat) :
    Except JsError String × List ChatCall :=
  if apiKeySet = false then
    (Except.error ⟨none, none, "GEMINI_API_KEY environment variable is not set"⟩, [])
  else
    let trimmedMessages := trimChatHistory messages
    match trimmedMessages.getLast? with
    | none => (Except.error ⟨none, none, "No messages to process"⟩, [])
    | some lastMessage =>
      if lastMessage.role = "user" then
        let history := convertToGeminiHistory trimmedMessages.dropLast
        let modelIndex := min (retryCount / 2) (MODELS.length - 1)
        let selectedModel := MODELS.getD modelIndex ""
        let call : ChatCall :=
          ⟨selectedModel, history, buildPersonalizedPrompt user, lastMessage.content⟩
        (provider retryCount, [call])
      else
        (Except.error ⟨none, none, "Last message must be from user"⟩, [])

/-- Structural realization of the bounded retry recursion of
`generateResponse`.  The `fuel` argument only carries the termination
measure `MAX_RETRIES + 1 - retryCount`; when it is exhausted the guard
`retryCount < MAX_RETRIES` is already false, so the fuel-out arm returns
exactly what the guarded branch would (`generateResponse_unfold` below
proves the source-shaped recursive equation without any fuel). -/
def generateResponseGo (provider : Nat → Except JsError String) (apiKeySet : Bool)
    (messages : List Msg) (user : Option UserProfile) :
    Nat → Nat → Run
  | Nat.succ fuelRest, retryCount =>
    match tryBlock apiKeySet provider messages user retryCount with
    | (Except.ok text, calls) => ⟨Except.ok text, calls, []⟩
    | (Except.error e, calls) =>
      if isRetryable e = true ∧ retryCount < MAX_RETRIES then
        let rest := generateResponseGo provider apiKeySet messages user fuelRest
          (retryCount + 1)
        ⟨rest.outcome, calls ++ rest.calls, 2 ^ retryCount * 1000 :: rest.sleeps⟩
      else
        ⟨Except.error (classifyError e), calls, []⟩
  | Nat.zero, retryCount =>
    match tryBlock apiKeySet provider messages user retryCount with
    | (Except.ok text, calls) => ⟨Except.ok text, calls, []⟩
    | (Except.error e, calls) =>
      ⟨Except.error (classifyError e), calls, []⟩

/-- Embeds `generateResponse`: run the `try` block; on a retryable error
while `retryCount < MAX_RETRIES`, sleep `2^retryCount` seconds and recurse
with `retryCount + 1` on the same inputs; otherwise translate the error. -/
def generateResponse (provider : Nat → Except JsError String) (apiKeySet : Bool)
    (messages : List Msg) (user : Option UserProfile) (retryCount : Nat) : Run :=
  generateResponseGo provider apiKeySet messages user
    (MAX_RETRIES + 1 - retryCount) retryCount

/-- Example provider oracle: always succeeds. -/
def provOk : Nat → Except JsError String := fun _ => Except.ok "Hello, World!"

/-- Example provider oracle: always fails with an overloaded 503 error. -/
def provBusy : Nat → Except JsError String :=
  fun _ => Except.error ⟨some 503, none, "The model is overloaded"⟩

/-- Example provider oracle: always fails with a 429 rate-limit error whose
text matches none of the translation-ladder patterns. -/
def provRateLimit : Nat → Except JsError String :=
  fun _ => Except.error ⟨some 429, none, "rate limit"⟩

/-- Example history of `n` alternating user/bot messages, ending with a user
message when `n` is odd. -/
def exMsgs (n : Nat) : List Msg :=
  (List.range n).map fun i => ⟨if i % 2 = 0 then "user" else "bot", toString i⟩

/-! Basic lemmas about the embedding. -/

lemma MAX_HISTORY_MESSAGES_eq : MAX_HISTORY_MESSAGES = 30 := rfl

lemma MAX_RETRIES_eq : MAX_RETRIES = 3 := rfl

lemma MODELS_length_eq : MODELS.length = 2 := rfl

lemma trimChatHistory_getLast? (msgs : List Msg) :
    (trimChatHistory msgs).getLast? = msgs.getLast? := by
  unfold trimChatHistory
  split
  · rfl
  · rename_i h
    rw [List.getLast?_drop]
    split
    · rename_i h2
      rw [MAX_HISTORY_MESSAGES_eq] at h h2
      omega
    · rfl

lemma trimChatHistory_length_le (msgs : List Msg) :
    (trimChatHistory msgs).length ≤ MAX_HISTORY_MESSAGES := by
  unfold trimChatHistory
  split
  · assumption
  · rename_i h
    rw [List.length_drop, MAX_HISTORY_MESSAGES_eq] at *
    omega

lemma generateResponseGo_succ (provider : Nat → Except JsError String)
    (apiKeySet : Bool) (messages : List Msg) (user : Option UserProfile)
    (fuel retryCount : Nat) :
    generateResponseGo provider apiKeySet messages user (fuel + 1) retryCount =
      match tryBlock apiKeySet provider messages user retryCount with
      | (Except.ok text, calls) => ⟨Except.ok text, calls, []⟩
      | (Except.error e, calls) =>
        if isRetryable e = true ∧ retryCount < MAX_RETRIES then
          let rest := generateResponseGo provider apiKeySet messages user fuel
            (retryCount + 1)
          ⟨rest.outcome, calls ++ rest.calls, 2 ^ retryCount * 1000 :: rest.sleeps⟩
        else
          ⟨Except.error (classifyError e), calls, []⟩ := rfl

lemma generateResponseGo_zero (provider : Nat → Except JsError String)
    (apiKeySet : Bool) (messages : List Msg) (user : Option UserProfile)
    (retryCount : Nat) :
    generateResponseGo provider apiKeySet messages user 0 retryCount =
      match tryBlock apiKeySet provider messages user retryCount with
      | (Except.ok text, calls) => ⟨Except.ok text, calls, []⟩
      | (Except.error e, calls) =>
        ⟨Except.error (classifyError e), calls, []⟩ := rfl

lemma generateResponseGo_congr (provider : Nat → Except JsError String)
    (apiKeySet : Bool) (messages : List Msg) (user : Option UserProfile) :
    ∀ fuel₁ fuel₂ retryCount,
      MAX_RETRIES - retryCount < fuel₁ ∨ MAX_RETRIES ≤ retryCount →
      MAX_RETRIES - retryCount < fuel₂ ∨ MAX_RETRIES ≤ retryCount →
      generateResponseGo provider apiKeySet messages user fuel₁ retryCount =
        generateResponseGo provider apiKeySet messages user fuel₂ retryCount := by
  intro fuel₁
  induction fuel₁ with
  | zero =>
    intro fuel₂ retryCount h₁ h₂
    have hge : MAX_RETRIES ≤ retryCount := by
      rcases h₁ with h | h
      · omega
      · exact h
    cases fuel₂ with
    | zero => rfl
    | succ f₂ =>
      rw [generateResponseGo_zero, generateResponseGo_succ]
      cases htb : tryBlock apiKeySet provider messages user retryCount with
      | mk res calls =>
        cases res with
        | ok text => rfl
        | error e =>
          have hng : ¬(isRetryable e = true ∧ retryCount < MAX_RETRIES) := by
            rintro ⟨-, hlt⟩
            omega
          dsimp only
          rw [if_neg hng]
  | succ f₁ ih =>
    intro fuel₂ retryCount h₁ h₂
    cases fuel₂ with
    | zero =>
      have hge : MAX_RETRIES ≤ retryCount := by
        rcases h₂ with h | h
        · omega
        · exact h
      rw [generateResponseGo_succ, generateResponseGo_zero]
      cases htb : tryBlock apiKeySet provider messages user retryCount with
      | mk res calls =>
        cases res with
        | ok text => rfl
        | error e =>
          have hng : ¬(isRetryable e = true ∧ retryCount < MAX_RETRIES) := by
            rintro ⟨-, hlt⟩
            omega
          dsimp only
          rw [if_neg hng]
    | succ f₂ =>
      rw [generateResponseGo_succ, generateResponseGo_succ,
        ih f₂ (retryCount + 1) (by omega) (by omega)]

/-- The fuel-free, source-shaped recursive equation of `generateResponse`:
it is exactly the catch-block control flow of the JavaScript function. -/
lemma generateResponse_unfold (provider : Nat → Except JsError String)
    (apiKeySet : Bool) (messages : List Msg) (user : Option UserProfile)
    (retryCount : Nat) :
    generateResponse provider apiKeySet messages user retryCount =
      match tryBlock apiKeySet provider messages user retryCount with
      | (Except.ok text, calls) => ⟨Except.ok text, calls, []⟩
      | (Except.error e, calls) =>
        if isRetryable e = true ∧ retryCount < MAX_RETRIES then
          ⟨(generateResponse provider apiKeySet messages user (retryCount + 1)).outcome,
            calls ++ (generateResponse provider apiKeySet messages user (retryCount + 1)).calls,
            2 ^ retryCount * 1000 ::
              (generateResponse provider apiKeySet messages user (retryCount + 1)).sleeps⟩
        else
          ⟨Except.error (classifyError e), calls, []⟩ := by
  unfold generateResponse
  rcases Nat.lt_or_ge retryCount (MAX_RETRIES + 1) with hlt | hge
  · have hsucc : MAX_RETRIES + 1 - retryCount = (MAX_RETRIES - retryCount) + 1 := by
      omega
    have heq : MAX_RETRIES + 1 - (retryCount + 1) = MAX_RETRIES - retryCount := by
      omega
    rw [hsucc]
    simp only [heq]
    rw [generateResponseGo_succ]
  · have h0 : MAX_RETRIES + 1 - retryCount = 0 := by omega
    have h0' : MAX_RETRIES + 1 - (retryCount + 1) = 0 := by omega
    rw [h0]
    simp only [h0']
    rw [generateResponseGo_zero]
    cases htb : tryBlock apiKeySet provider messages user retryCount with
    | mk res calls =>
      cases res with
      | ok text => rfl
      | error e =>
        have hng : ¬(isRetryable e = true ∧ retryCount < MAX_RETRIES) := by
          rintro ⟨-, hl⟩
          omega
        dsimp only
        rw [if_neg hng]

lemma tryBlock_of_valid (provider : Nat → Except JsError String)
    (messages : List Msg) (user : Option UserProfile) (retryCount : Nat)
    (last : Msg) (hl : messages.getLast? = some last) (hrole : last.role = "user") :
    tryBlock true provider messages user retryCount =
      (provider retryCount,
        [⟨MODELS.getD (min (retryCount / 2) (MODELS.length - 1)) "",
          convertToGeminiHistory (trimChatHistory messages).dropLast,
          buildPersonalizedPrompt user, last.content⟩]) := by
  have hgl : (trimChatHistory messages).getLast? = some last := by
    rw [trimChatHistory_getLast?, hl]
  unfold tryBlock
  simp only [hgl, hrole]
  simp

lemma tryBlock_of_empty (provider : Nat → Except JsError String)
    (user : Option UserProfile) (retryCount : Nat) :
    tryBlock true provider [] user retryCount =
      (Except.error ⟨none, none, "No messages to process"⟩, []) := rfl

lemma tryBlock_of_lastNotUser (provider : Nat → Except JsError String)
    (messages : List Msg) (user : Option UserProfile) (retryCount : Nat)
    (last : Msg) (hl : messages.getLast? = some last) (hrole : last.role ≠ "user") :
    tryBlock true provider messages user retryCount =
      (Except.error ⟨none, none, "Last message must be from user"⟩, []) := by
  have hgl : (trimChatHistory messages).getLast? = some last := by
    rw [trimChatHistory_getLast?, hl]
  unfold tryBlock
  simp only [hgl, hrole]
  simp [hrole]

lemma tryBlock_calls_length (apiKeySet : Bool) (provider : Nat → Except JsError String)
    (messages : List Msg) (user : Option UserProfile) (retryCount : Nat) :
    (tryBlock apiKeySet provider messages user retryCount).2.length ≤ 1 := by
  unfold tryBlock
  split
  · simp
  · dsimp only
    split
    · simp
    · split
      · simp
      · simp

lemma generateResponse_of_tryOk {provider : Nat → Except JsError String}
    {apiKeySet : Bool} {messages : List Msg} {user : Option UserProfile}
    {retryCount : Nat} {t : String} {cs : List ChatCall}
    (h : tryBlock apiKeySet provider messages user retryCount = (Except.ok t, cs)) :
    generateResponse provider apiKeySet messages user retryCount =
      ⟨Except.ok t, cs, []⟩ := by
  rw [generateResponse_unfold, h]

lemma generateResponse_of_retry {provider : Nat → Except JsError String}
    {apiKeySet : Bool} {messages : List Msg} {user : Option UserProfile}
    {retryCount : Nat} {e : JsError} {cs : List ChatCall}
    (h : tryBlock apiKeySet provider messages user retryCount = (Except.error e, cs))
    (hr : isRetryable e = true) (hlt : retryCount < MAX_RETRIES) :
    generateResponse provider apiKeySet messages user retryCount =
      ⟨(generateResponse provider apiKeySet messages user (retryCount + 1)).outcome,
        cs ++ (generateResponse provider apiKeySet messages user (retryCount + 1)).calls,
        2 ^ retryCount * 1000 ::
          (generateResponse provider apiKeySet messages user (retryCount + 1)).sleeps⟩ := by
  rw [generateResponse_unfold, h]
  dsimp only
  rw [if_pos ⟨hr, hlt⟩]

lemma generateResponse_of_stop {provider : Nat → Except JsError String}
    {apiKeySet : Bool} {messages : List Msg} {user : Option UserProfile}
    {retryCount : Nat} {e : JsError} {cs : List ChatCall}
    (h : tryBlock apiKeySet provider messages user retryCount = (Except.error e, cs))
    (hng : ¬(isRetryable e = true ∧ retryCount < MAX_RETRIES)) :
    generateResponse provider apiKeySet messages user retryCount =
      ⟨Except.error (classifyError e), cs, []⟩ := by
  rw [generateResponse_unfold, h]
  dsimp only
  rw [if_neg hng]

/-- Every provider call made by a run on a valid history carries the same
converted windowed history, system instruction and final message; only the
model can vary, and it is always the fallback-list selection for some
attempt number at least the starting one. -/
lemma generateResponse_calls_shape (provider : Nat → Except JsError String)
    (messages : List Msg) (user : Option UserProfile) (last : Msg)
    (hl : messages.getLast? = some last) (hrole : last.role = "user") :
    ∀ n retryCount, MAX_RETRIES + 1 - retryCount ≤ n →
      ∀ c ∈ (generateResponse provider true messages user retryCount).calls,
        c.history = convertToGeminiHistory (trimChatHistory messages).dropLast ∧
        c.systemInstruction = buildPersonalizedPrompt user ∧
        c.message = last.content ∧
        ∃ a, retryCount ≤ a ∧
          c.model = MODELS.getD (min (a / 2) (MODELS.length - 1)) "" := by
  intro n
  induction n with
  | zero =>
    intro retryCount hn c hc
    have hge : MAX_RETRIES + 1 ≤ retryCount := by omega
    have htb := tryBlock_of_valid provider messages user retryCount last hl hrole
    cases hpr : provider retryCount with
    | ok t =>
      rw [hpr] at htb
      rw [generateResponse_of_tryOk htb] at hc
      simp only [List.mem_singleton] at hc
      subst hc
      exact ⟨rfl, rfl, rfl, retryCount, le_refl _, rfl⟩
    | error e =>
      rw [hpr] at htb
      have hng : ¬(isRetryable e = true ∧ retryCount < MAX_RETRIES) := by
        rintro ⟨-, hlt⟩
        omega
      rw [generateResponse_of_stop htb hng] at hc
      simp only [List.mem_singleton] at hc
      subst hc
      exact ⟨rfl, rfl, rfl, retryCount, le_refl _, rfl⟩
  | succ m ih =>
    intro retryCount hn c hc
    have htb := tryBlock_of_valid provider messages user retryCount last hl hrole
    cases hpr : provider retryCount with
    | ok t =>
      rw [hpr] at htb
      rw [generateResponse_of_tryOk htb] at hc
      simp only [List.mem_singleton] at hc
      subst hc
      exact ⟨rfl, rfl, rfl, retryCount, le_refl _, rfl⟩
    | error e =>
      rw [hpr] at htb
      by_cases hg : isRetryable e = true ∧ retryCount < MAX_RETRIES
      · rw [generateResponse_of_retry htb hg.1 hg.2] at hc
        simp only [List.mem_append, List.mem_singleton] at hc
        rcases hc with hc | hc
        · subst hc
          exact ⟨rfl, rfl, rfl, retryCount, le_refl _, rfl⟩
        · obtain ⟨h1, h2, h3, a, ha, hm⟩ := ih (retryCount + 1) (by omega) c hc
          exact ⟨h1, h2, h3, a, by omega, hm⟩
      · rw [generateResponse_of_stop htb hg] at hc
        simp only [List.mem_singleton] at hc
        subst hc
        exact ⟨rfl, rfl, rfl, retryCount, le_refl _, rfl⟩

/-- A run performs at most `MAX_RETRIES + 1 - retryCount` provider attempts
(and at least one bound holds even past the budget). -/
lemma generateResponse_calls_length (provider : Nat → Except JsError String)
    (apiKeySet : Bool) (messages : List Msg) (user : Option UserProfile) :
    ∀ n retryCount, MAX_RETRIES + 1 - retryCount ≤ n →
      (generateResponse provider apiKeySet messages user retryCount).calls.length ≤
        max (MAX_RETRIES + 1 - retryCount) 1 := by
  intro n
  induction n with
  | zero =>
    intro retryCount hn
    have hge : MAX_RETRIES + 1 ≤ retryCount := by omega
    rw [generateResponse_unfold]
    cases htb : tryBlock apiKeySet provider messages user retryCount with
    | mk res cs =>
      have hcs : cs.length ≤ 1 := by
        have := tryBlock_calls_length apiKeySet provider messages user retryCount
        rw [htb] at this
        exact this
      cases res with
      | ok t =>
        simpa using le_max_of_le_right hcs
      | error e =>
        have hng : ¬(isRetryable e = true ∧ retryCount < MAX_RETRIES) := by
          rintro ⟨-, hlt⟩
          omega
        dsimp only
        rw [if_neg hng]
        simpa using le_max_of_le_right hcs
  | succ m ih =>
    intro retryCount hn
    rw [generateResponse_unfold]
    cases htb : tryBlock apiKeySet provider messages user retryCount with
    | mk res cs =>
      have hcs : cs.length ≤ 1 := by
        have := tryBlock_calls_length apiKeySet provider messages user retryCount
        rw [htb] at this
        exact this
      cases res with
      | ok t =>
        simpa using le_max_of_le_right hcs
      | error e =>
        by_cases hg : isRetryable e = true ∧ retryCount < MAX_RETRIES
        · dsimp only
          rw [if_pos hg]
          dsimp only
          rw [List.length_append]
          have hrest := ih (retryCount + 1) (by omega)
          have hlt := hg.2
          omega
        · dsimp only
          rw [if_neg hg]
          simpa using le_max_of_le_right hcs

/-- Once the retry budget is exhausted (`MAX_RETRIES ≤ retryCount`) a run
never sleeps and performs at most one provider attempt. -/
lemma generateResponse_exhausted (provider : Nat → Except JsError String)
    (apiKeySet : Bool) (messages : List Msg) (user : Option UserProfile)
    (retryCount : Nat) (hge : MAX_RETRIES ≤ retryCount) :
    (generateResponse provider apiKeySet messages user retryCount).sleeps = [] ∧
      (generateResponse provider apiKeySet messages user retryCount).calls.length ≤ 1 := by
  rw [generateResponse_unfold]
  cases htb : tryBlock apiKeySet provider messages user retryCount with
  | mk res cs =>
    have hcs : cs.length ≤ 1 := by
      have := tryBlock_calls_length apiKeySet provider messages user retryCount
      rw [htb] at this
      exact this
    cases res with
    | ok t => exact ⟨rfl, hcs⟩
    | error e =>
      have hng : ¬(isRetryable e = true ∧ retryCount < MAX_RETRIES) := by
        rintro ⟨-, hlt⟩
        omega
      dsimp only
      rw [if_neg hng]
      exact ⟨rfl, hcs⟩

/-! Claim theorems. -/

/-- C10: `trimChatHistory` returns every list of length at most 30
unchanged, is idempotent, and its output never exceeds 30 entries. -/
theorem C10_trimChatHistory_idempotent :
    MAX_HISTORY_MESSAGES = 30 ∧
    (∀ xs : List Msg, xs.length ≤ 30 → trimChatHistory xs = xs) ∧
    (∀ xs : List Msg, trimChatHistory (trimChatHistory xs) = trimChatHistory xs) ∧
    (∀ xs : List Msg, (trimChatHistory xs).length ≤ 30) := by
  have hid : ∀ xs : List Msg, xs.length ≤ 30 → trimChatHistory xs = xs := by
    intro xs h
    have h' : xs.length ≤ MAX_HISTORY_MESSAGES := by
      rw [MAX_HISTORY_MESSAGES_eq]
      exact h
    unfold trimChatHistory
    rw [if_pos h']
  have hlen : ∀ xs : List Msg, (trimChatHistory xs).length ≤ 30 := by
    intro xs
    have := trimChatHistory_length_le xs
    rwa [MAX_HISTORY_MESSAGES_eq] at this
  exact ⟨rfl, hid, fun xs => hid _ (hlen xs), hlen⟩

/-- C10 witness: a one-message history is returned unchanged. -/
theorem C10_witness :
    ([⟨"user", "hi"⟩] : List Msg).length ≤ 30 ∧
    trimChatHistory [⟨"user", "hi"⟩] = [⟨"user", "hi"⟩] :=
  ⟨by decide, C10_trimChatHistory_idempotent.2.1 _ (by decide)⟩

/-- C7: with a null profile the assembled system instruction is exactly the
fixed base prompt; with nonempty interests and a nonblank persona it is the
base text, then the interests clause with the tags comma-joined in order,
then the persona verbatim, in that fixed order. -/
theorem C7_prompt_assembly :
    buildPersonalizedPrompt none = SYSTEM_PROMPT ∧
    (∀ (interests : List String) (persona : String),
      interests ≠ [] → jsTrim persona ≠ "" →
      buildPersonalizedPrompt (some ⟨interests, persona⟩) =
        SYSTEM_PROMPT ++
          "\n\n# USER\x27S INTERESTS:\nThis user is particularly interested in: " ++
          String.intercalate ", " interests ++
          ". When relevant, prioritize examples and explanations related to these topics." ++
          "\n\n# USER\x27S CUSTOM INSTRUCTIONS:\n" ++ persona) := by
  constructor
  · rfl
  · intro interests persona hi hp
    have hlen : 0 < interests.length := List.length_pos.mpr hi
    unfold buildPersonalizedPrompt
    dsimp only
    rw [if_pos hlen, if_pos hp]

/-- C7 witness: the spec example profile. -/
theorem C7_witness :
    (["graphs", "OS"] : List String) ≠ [] ∧ jsTrim "Be terse." ≠ "" ∧
    buildPersonalizedPrompt (some ⟨["graphs", "OS"], "Be terse."⟩) =
      SYSTEM_PROMPT ++
        "\n\n# USER\x27S INTERESTS:\nThis user is particularly interested in: " ++
        String.intercalate ", " ["graphs", "OS"] ++
        ". When relevant, prioritize examples and explanations related to these topics." ++
        "\n\n# USER\x27S CUSTOM INSTRUCTIONS:\n" ++ "Be terse." :=
  ⟨by decide, by decide,
    C7_prompt_assembly.2 ["graphs", "OS"] "Be terse." (by decide) (by decide)⟩

/-- C9: the conversion to provider turns is total and length-preserving,
keeps each content, maps role `user` to `user` and every other role string,
in particular the stored `bot` role, to `model`. -/
theorem C9_convert_total_role_map :
    (∀ msgs : List Msg, (convertToGeminiHistory msgs).length = msgs.length) ∧
    (∀ (msgs : List Msg) (i : Nat) (h1 : i < (convertToGeminiHistory msgs).length)
        (h2 : i < msgs.length),
      ((convertToGeminiHistory msgs).get ⟨i, h1⟩).text = (msgs.get ⟨i, h2⟩).content ∧
      ((msgs.get ⟨i, h2⟩).role = "user" →
        ((convertToGeminiHistory msgs).get ⟨i, h1⟩).role = "user") ∧
      ((msgs.get ⟨i, h2⟩).role ≠ "user" →
        ((convertToGeminiHistory msgs).get ⟨i, h1⟩).role = "model")) ∧
    (∀ m : Msg, m.role = "bot" → convertToGeminiHistory [m] = [⟨"model", m.content⟩]) ∧
    messageRoleEnum = ["user", "bot"] := by
  refine ⟨fun msgs => by simp [convertToGeminiHistory], ?_, ?_, rfl⟩
  · intro msgs i h1 h2
    simp only [convertToGeminiHistory, List.get_eq_getElem, List.getElem_map]
    refine ⟨trivial, fun hu => ?_, fun hn => ?_⟩
    · simp [hu]
    · simp [hn]
  · intro m hm
    simp [convertToGeminiHistory, hm]

/-- C9 witness: a stored bot message converts to the provider model role. -/
theorem C9_witness :
    (⟨"bot", "x"⟩ : Msg).role = "bot" ∧
    convertToGeminiHistory [⟨"bot", "x"⟩] = [⟨"model", "x"⟩] :=
  ⟨rfl, C9_convert_total_role_map.2.2.1 ⟨"bot", "x"⟩ rfl⟩

/-- C2: on an empty history, or a history whose last entry is not a user
turn, the run makes no provider call and no sleep, and fails with the
invalid-history error (the wrapped precondition message). -/
theorem C2_invalid_history (provider : Nat → Except JsError String)
    (messages : List Msg) (user : Option UserProfile) (retryCount : Nat)
    (h : messages = [] ∨ ∃ last, messages.getLast? = some last ∧ last.role ≠ "user") :
    (generateResponse provider true messages user retryCount).calls = [] ∧
    (generateResponse provider true messages user retryCount).sleeps = [] ∧
    ((generateResponse provider true messages user retryCount).outcome =
        Except.error "Failed to generate response: No messages to process" ∨
      (generateResponse provider true messages user retryCount).outcome =
        Except.error "Failed to generate response: Last message must be from user") := by
  rcases h with h | ⟨last, hl, hrole⟩
  · subst h
    have htb := tryBlock_of_empty provider user retryCount
    have hng : ¬(isRetryable ⟨none, none, "No messages to process"⟩ = true ∧
        retryCount < MAX_RETRIES) := by
      rintro ⟨h1, -⟩
      exact absurd h1 (by decide)
    rw [generateResponse_of_stop htb hng]
    exact ⟨rfl, rfl, Or.inl rfl⟩
  · have htb := tryBlock_of_lastNotUser provider messages user retryCount last hl hrole
    have hng : ¬(isRetryable ⟨none, none, "Last message must be from user"⟩ = true ∧
        retryCount < MAX_RETRIES) := by
      rintro ⟨h1, -⟩
      exact absurd h1 (by decide)
    rw [generateResponse_of_stop htb hng]
    exact ⟨rfl, rfl, Or.inr rfl⟩

/-- C2 witness: the empty history never reaches the provider. -/
theorem C2_witness :
    (([] : List Msg) = [] ∨
      ∃ last, ([] : List Msg).getLast? = some last ∧ last.role ≠ "user") ∧
    (generateResponse provOk true [] none 0).calls = [] ∧
    (generateResponse provOk true [] none 0).sleeps = [] ∧
    ((generateResponse provOk true [] none 0).outcome =
        Except.error "Failed to generate response: No messages to process" ∨
      (generateResponse provOk true [] none 0).outcome =
        Except.error "Failed to generate response: Last message must be from user") :=
  ⟨Or.inl rfl, C2_invalid_history provOk [] none 0 (Or.inl rfl)⟩

/-- C1: on a valid history longer than 30 entries every provider call of
the run is formed from exactly the last 30 entries, in order: the prior
turns are the conversion of those 30 minus the final one, and the final
entry is the message sent; on a history of at most 30 entries all entries
are used the same way. -/
theorem C1_windowing (provider : Nat → Except JsError String)
    (messages : List Msg) (user : Option UserProfile) (retryCount : Nat)
    (last : Msg) (hl : messages.getLast? = some last) (hrole : last.role = "user") :
    (30 < messages.length →
      trimChatHistory messages = messages.drop (messages.length - 30) ∧
      ∀ c ∈ (generateResponse provider true messages user retryCount).calls,
        c.history =
          convertToGeminiHistory ((messages.drop (messages.length - 30)).dropLast) ∧
        c.message = last.content) ∧
    (messages.length ≤ 30 →
      trimChatHistory messages = messages ∧
      ∀ c ∈ (generateResponse provider true messages user retryCount).calls,
        c.history = convertToGeminiHistory messages.dropLast ∧
        c.message = last.content) := by
  have hshape := generateResponse_calls_shape provider messages user last hl hrole
    (MAX_RETRIES + 1) retryCount (by omega)
  constructor
  · intro hgt
    have htrim : trimChatHistory messages = messages.drop (messages.length - 30) := by
      unfold trimChatHistory
      rw [MAX_HISTORY_MESSAGES_eq]
      rw [if_neg (by omega)]
    refine ⟨htrim, fun c hc => ?_⟩
    obtain ⟨h1, -, h3, -⟩ := hshape c hc
    rw [htrim] at h1
    exact ⟨h1, h3⟩
  · intro hle
    have htrim : trimChatHistory messages = messages := by
      unfold trimChatHistory
      rw [MAX_HISTORY_MESSAGES_eq]
      rw [if_pos hle]
    refine ⟨htrim, fun c hc => ?_⟩
    obtain ⟨h1, -, h3, -⟩ := hshape c hc
    rw [htrim] at h1
    exact ⟨h1, h3⟩

/-- C1 witness: a 31-message history is windowed to its last 30 entries. -/
theorem C1_witness :
    (exMsgs 31).getLast? = some ⟨"user", "30"⟩ ∧
    (⟨"user", "30"⟩ : Msg).role = "user" ∧
    30 < (exMsgs 31).length ∧
    (trimChatHistory (exMsgs 31) = (exMsgs 31).drop ((exMsgs 31).length - 30) ∧
      ∀ c ∈ (generateResponse provOk true (exMsgs 31) none 0).calls,
        c.history =
          convertToGeminiHistory (((exMsgs 31).drop ((exMsgs 31).length - 30)).dropLast) ∧
        c.message = (⟨"user", "30"⟩ : Msg).content) :=
  ⟨by decide, rfl, by decide,
    (C1_windowing provOk (exMsgs 31) none 0 ⟨"user", "30"⟩ (by decide) rfl).1 (by decide)⟩

/-- C6: every provider call of a run on a valid history sends, as prior
turns, exactly the windowed messages minus the last one, in order, content
preserved, role `user` mapped to `user` and role `assistant` mapped to
`model`; the last windowed message's content is the new user turn sent. -/
theorem C6_prior_turns (provider : Nat → Except JsError String)
    (messages : List Msg) (user : Option UserProfile) (retryCount : Nat)
    (last : Msg) (hl : messages.getLast? = some last) (hrole : last.role = "user") :
    ∀ c ∈ (generateResponse provider true messages user retryCount).calls,
      c.history.length = (trimChatHistory messages).length - 1 ∧
      (∀ i : Nat, i + 1 < (trimChatHistory messages).length →
        ∃ gm m, c.history[i]? = some gm ∧ (trimChatHistory messages)[i]? = some m ∧
          gm.text = m.content ∧
          (m.role = "user" → gm.role = "user") ∧
          (m.role = "assistant" → gm.role = "model")) ∧
      c.message = last.content := by
  intro c hc
  obtain ⟨h1, -, h3, -⟩ := generateResponse_calls_shape provider messages user last hl hrole
    (MAX_RETRIES + 1) retryCount (by omega) c hc
  refine ⟨?_, ?_, h3⟩
  · rw [h1]
    simp [convertToGeminiHistory]
  · intro i hi
    have hit : i < (trimChatHistory messages).length := by omega
    refine ⟨⟨if ((trimChatHistory messages).get ⟨i, hit⟩).role = "user" then "user"
              else "model",
            ((trimChatHistory messages).get ⟨i, hit⟩).content⟩,
          (trimChatHistory messages).get ⟨i, hit⟩, ?_, ?_, rfl, ?_, ?_⟩
    · rw [h1]
      unfold convertToGeminiHistory
      rw [List.getElem?_map, List.getElem?_dropLast]
      rw [if_pos (by omega), List.getElem?_eq_getElem hit]
      simp [List.get_eq_getElem]
    · rw [List.getElem?_eq_getElem hit]
      simp [List.get_eq_getElem]
    · intro hu
      rw [List.get_eq_getElem] at hu
      simp [hu]
    · intro ha
      have hne : ((trimChatHistory messages).get ⟨i, hit⟩).role ≠ "user" := by
        rw [ha]
        decide
      rw [List.get_eq_getElem] at hne
      simp [hne]

/-- C6 witness: on a two-message windowed history the single prior turn is
the converted first message and the second message is sent. -/
theorem C6_witness :
    ([⟨"user", "a"⟩, ⟨"user", "b"⟩] : List Msg).getLast? = some ⟨"user", "b"⟩ ∧
    (⟨"user", "b"⟩ : Msg).role = "user" ∧
    ∀ c ∈ (generateResponse provOk true [⟨"user", "a"⟩, ⟨"user", "b"⟩] none 0).calls,
      c.history.length = (trimChatHistory [⟨"user", "a"⟩, ⟨"user", "b"⟩]).length - 1 ∧
      (∀ i : Nat, i + 1 < (trimChatHistory [⟨"user", "a"⟩, ⟨"user", "b"⟩]).length →
        ∃ gm m, c.history[i]? = some gm ∧
          (trimChatHistory [⟨"user", "a"⟩, ⟨"user", "b"⟩])[i]? = some m ∧
          gm.text = m.content ∧
          (m.role = "user" → gm.role = "user") ∧
          (m.role = "assistant" → gm.role = "model")) ∧
      c.message = (⟨"user", "b"⟩ : Msg).content :=
  ⟨rfl, rfl,
    C6_prior_turns provOk [⟨"user", "a"⟩, ⟨"user", "b"⟩] none 0 ⟨"user", "b"⟩ rfl rfl⟩

/-- C3: a retryable provider error at attempt `a < MAX_RETRIES = 3` makes
the run sleep exactly `2^a` seconds (1s, 2s, 4s for attempts 0, 1, 2) and
re-invoke itself at attempt `a + 1` on the same inputs; a run from attempt
0 makes at most 4 provider attempts, and no retry happens once the attempt
number reaches 3. -/
theorem C3_backoff_retry :
    MAX_RETRIES = 3 ∧
    (2 ^ 0 * 1000 = 1000 ∧ 2 ^ 1 * 1000 = 2000 ∧ 2 ^ 2 * 1000 = 4000) ∧
    (∀ (provider : Nat → Except JsError String) (messages : List Msg)
        (user : Option UserProfile) (retryCount : Nat) (last : Msg) (e : JsError),
      messages.getLast? = some last → last.role = "user" →
      provider retryCount = Except.error e → isRetryable e = true →
      retryCount < MAX_RETRIES →
      ∃ c, generateResponse provider true messages user retryCount =
        ⟨(generateResponse provider true messages user (retryCount + 1)).outcome,
          c :: (generateResponse provider true messages user (retryCount + 1)).calls,
          2 ^ retryCount * 1000 ::
            (generateResponse provider true messages user (retryCount + 1)).sleeps⟩) ∧
    (∀ (provider : Nat → Except JsError String) (apiKeySet : Bool)
        (messages : List Msg) (user : Option UserProfile),
      (generateResponse provider apiKeySet messages user 0).calls.length ≤
        MAX_RETRIES + 1) ∧
    (∀ (provider : Nat → Except JsError String) (apiKeySet : Bool)
        (messages : List Msg) (user : Option UserProfile) (retryCount : Nat),
      MAX_RETRIES ≤ retryCount →
      (generateResponse provider apiKeySet messages user retryCount).sleeps = []) := by
  refine ⟨rfl, ⟨rfl, rfl, rfl⟩, ?_, ?_, ?_⟩
  · intro provider messages user retryCount last e hl hrole hpr hre hlt
    have htb := tryBlock_of_valid provider messages user retryCount last hl hrole
    rw [hpr] at htb
    exact ⟨_, generateResponse_of_retry htb hre hlt⟩
  · intro provider apiKeySet messages user
    have h := generateResponse_calls_length provider apiKeySet messages user
      (MAX_RETRIES + 1) 0 (by omega)
    rw [Nat.sub_zero] at h
    have hmax : max (MAX_RETRIES + 1) 1 = MAX_RETRIES + 1 := by omega
    rw [hmax] at h
    exact h
  · intro provider apiKeySet messages user retryCount hge
    exact (generateResponse_exhausted provider apiKeySet messages user retryCount hge).1

/-- C3 witness: a 503-overloaded first attempt sleeps 1000 ms and retries
at attempt 1. -/
theorem C3_witness :
    ([⟨"user", "hi"⟩] : List Msg).getLast? = some ⟨"user", "hi"⟩ ∧
    (⟨"user", "hi"⟩ : Msg).role = "user" ∧
    provBusy 0 = Except.error ⟨some 503, none, "The model is overloaded"⟩ ∧
    isRetryable ⟨some 503, none, "The model is overloaded"⟩ = true ∧
    0 < MAX_RETRIES ∧
    ∃ c, generateResponse provBusy true [⟨"user", "hi"⟩] none 0 =
      ⟨(generateResponse provBusy true [⟨"user", "hi"⟩] none 1).outcome,
        c :: (generateResponse provBusy true [⟨"user", "hi"⟩] none 1).calls,
        2 ^ 0 * 1000 :: (generateResponse provBusy true [⟨"user", "hi"⟩] none 1).sleeps⟩ :=
  ⟨rfl, rfl, rfl, by decide, by decide,
    C3_backoff_retry.2.2.1 provBusy [⟨"user", "hi"⟩] none 0 ⟨"user", "hi"⟩
      ⟨some 503, none, "The model is overloaded"⟩ rfl rfl rfl (by decide) (by decide)⟩

/-- C4: every attempt selects the model at index `min(attempt / 2, M - 1)`
of the fallback list; for the configured 2-model list, attempts 0, 1, 2, 3
select models A, A, B, B and any later attempt clamps to the last model. -/
theorem C4_model_selection :
    MODELS = ["gemini-2.5-flash", "gemini-2.0-flash"] ∧
    (∀ (provider : Nat → Except JsError String) (messages : List Msg)
        (user : Option UserProfile) (retryCount : Nat) (last : Msg),
      messages.getLast? = some last → last.role = "user" →
      ∃ c rest,
        (generateResponse provider true messages user retryCount).calls = c :: rest ∧
        c.model = MODELS.getD (min (retryCount / 2) (MODELS.length - 1)) "") ∧
    (MODELS.getD (min (0 / 2) (MODELS.length - 1)) "" = "gemini-2.5-flash" ∧
      MODELS.getD (min (1 / 2) (MODELS.length - 1)) "" = "gemini-2.5-flash" ∧
      MODELS.getD (min (2 / 2) (MODELS.length - 1)) "" = "gemini-2.0-flash" ∧
      MODELS.getD (min (3 / 2) (MODELS.length - 1)) "" = "gemini-2.0-flash") ∧
    (∀ a : Nat, 2 ≤ a →
      MODELS.getD (min (a / 2) (MODELS.length - 1)) "" = "gemini-2.0-flash") := by
  refine ⟨rfl, ?_, ⟨rfl, rfl, rfl, rfl⟩, ?_⟩
  · intro provider messages user retryCount last hl hrole
    have htb := tryBlock_of_valid provider messages user retryCount last hl hrole
    cases hpr : provider retryCount with
    | ok t =>
      rw [hpr] at htb
      rw [generateResponse_of_tryOk htb]
      exact ⟨_, [], rfl, rfl⟩
    | error e =>
      rw [hpr] at htb
      by_cases hg : isRetryable e = true ∧ retryCount < MAX_RETRIES
      · rw [generateResponse_of_retry htb hg.1 hg.2]
        exact ⟨_, _, rfl, rfl⟩
      · rw [generateResponse_of_stop htb hg]
        exact ⟨_, [], rfl, rfl⟩
  · intro a ha
    have hidx : min (a / 2) (MODELS.length - 1) = 1 := by
      rw [ MODELS_length_eq]
      omega
    rw [hidx]
    rfl

/-- C4 witness: attempt 0 on a valid history selects the first model. -/
theorem C4_witness :
    ([⟨"user", "hi"⟩] : List Msg).getLast? = some ⟨"user", "hi"⟩ ∧
    (⟨"user", "hi"⟩ : Msg).role = "user" ∧
    ∃ c rest, (generateResponse provOk true [⟨"user", "hi"⟩] none 0).calls = c :: rest ∧
      c.model = MODELS.getD (min (0 / 2) (MODELS.length - 1)) "" :=
  ⟨rfl, rfl, C4_model_selection.2.1 provOk [⟨"user", "hi"⟩] none 0 ⟨"user", "hi"⟩ rfl rfl⟩

/-- C5 counterexample: a retryable 429 rate-limit error that is retried to
exhaustion does not surface the busy message; it falls through to the
catch-all wrapping, refuting the claim that every exhausted retryable
error surfaces ProviderBusy. -/
theorem C5_counterexample :
    isRetryable ⟨some 429, none, "rate limit"⟩ = true ∧
    provRateLimit MAX_RETRIES = Except.error ⟨some 429, none, "rate limit"⟩ ∧
    (generateResponse provRateLimit true [⟨"user", "hi"⟩] none 0).outcome =
      Except.error "Failed to generate response: rate limit" ∧
    (generateResponse provRateLimit true [⟨"user", "hi"⟩] none MAX_RETRIES).outcome =
      Except.error "Failed to generate response: rate limit" ∧
    (generateResponse provRateLimit true [⟨"user", "hi"⟩] none MAX_RETRIES).outcome ≠
      Except.error "AI service is currently busy. Please try again in a moment." := by
  refine ⟨by decide, rfl, rfl, rfl, ?_⟩
  intro h
  rw [show (generateResponse provRateLimit true [⟨"user", "hi"⟩] none MAX_RETRIES).outcome =
      Except.error "Failed to generate response: rate limit" from rfl] at h
  exact absurd (Except.error.inj h) (by decide)

/-- C5 amended: a retryable error at attempt `MAX_RETRIES` is not retried
again, and it surfaces the ProviderBusy message exactly when its structured
`status` is 503 or its text contains `overloaded` while matching none of
the earlier translation patterns; other retryable errors fall to other
branches or to the catch-all. -/
theorem C5_amended (provider : Nat → Except JsError String) (messages : List Msg)
    (user : Option UserProfile) (last : Msg) (e : JsError)
    (hl : messages.getLast? = some last) (hrole : last.role = "user")
    (hpr : provider MAX_RETRIES = Except.error e) (hre : isRetryable e = true)
    (hbusy : e.status = some 503 ∨ strContains e.message "overloaded" = true)
    (hp1 : strContains e.message "API key" = false)
    (hp2 : strContains e.message "API_KEY" = false)
    (hp3 : strContains e.message "quota" = false)
    (hp4 : strContains e.message "safety" = false)
    (hp5 : strContains e.message "SAFETY" = false)
    (hp6 : strContains e.message "not found" = false)
    (hp7 : strContains e.message "404" = false) :
    (generateResponse provider true messages user MAX_RETRIES).outcome =
      Except.error "AI service is currently busy. Please try again in a moment." ∧
    (generateResponse provider true messages user MAX_RETRIES).sleeps = [] ∧
    (generateResponse provider true messages user MAX_RETRIES).calls.length = 1 := by
  have htb := tryBlock_of_valid provider messages user MAX_RETRIES last hl hrole
  rw [hpr] at htb
  have hng : ¬(isRetryable e = true ∧ MAX_RETRIES < MAX_RETRIES) := by
    rintro ⟨-, hlt⟩
    omega
  rw [generateResponse_of_stop htb hng]
  refine ⟨?_, rfl, rfl⟩
  have hc : classifyError e =
      "AI service is currently busy. Please try again in a moment." := by
    unfold classifyError
    rw [hp1, hp2, hp3, hp4, hp5, hp6, hp7]
    rcases hbusy with hb | hb <;> simp [hb]
  rw [hc]

/-- C5 amended witness: an exhausted 503-overloaded error surfaces the
busy message with no further retry. -/
theorem C5_witness :
    isRetryable ⟨some 503, none, "The model is overloaded"⟩ = true ∧
    (generateResponse provBusy true [⟨"user", "hi"⟩] none MAX_RETRIES).outcome =
      Except.error "AI service is currently busy. Please try again in a moment." ∧
    (generateResponse provBusy true [⟨"user", "hi"⟩] none MAX_RETRIES).sleeps = [] ∧
    (generateResponse provBusy true [⟨"user", "hi"⟩] none MAX_RETRIES).calls.length = 1 :=
  ⟨by decide,
    C5_amended provBusy [⟨"user", "hi"⟩] none ⟨"user", "hi"⟩
      ⟨some 503, none, "The model is overloaded"⟩ rfl rfl rfl (by decide) (Or.inl rfl)
      (by decide) (by decide) (by decide) (by decide) (by decide) (by decide) (by decide)⟩

/-- C8: an error is retryable exactly when the status-field disjunction
(`status || statusCode` equal to 503 or 429) holds or its text contains one
of the five recognized substrings; a non-retryable try-block error is never
retried (one attempt, no sleep, immediate translation); and an error
matching no translation pattern surfaces as the catch-all wrapping of its
raw message. -/
theorem C8_retryable_classification :
    (∀ e : JsError, isRetryable e = true ↔
      (errorStatusOf e = some 503 ∨ errorStatusOf e = some 429 ∨
        "503".data <:+: e.message.data ∨ "429".data <:+: e.message.data ∨
        "overloaded".data <:+: e.message.data ∨
        "UNAVAILABLE".data <:+: e.message.data ∨
        "rate limit".data <:+: e.message.data)) ∧
    (∀ (provider : Nat → Except JsError String) (apiKeySet : Bool)
        (messages : List Msg) (user : Option UserProfile) (retryCount : Nat)
        (e : JsError) (cs : List ChatCall),
      tryBlock apiKeySet provider messages user retryCount = (Except.error e, cs) →
      isRetryable e = false →
      generateResponse provider apiKeySet messages user retryCount =
        ⟨Except.error (classifyError e), cs, []⟩) ∧
    (∀ e : JsError,
      strContains e.message "API key" = false →
      strContains e.message "API_KEY" = false →
      strContains e.message "quota" = false →
      strContains e.message "safety" = false →
      strContains e.message "SAFETY" = false →
      strContains e.message "not found" = false →
      strContains e.message "404" = false →
      e.status ≠ some 503 →
      strContains e.message "overloaded" = false →
      classifyError e = "Failed to generate response: " ++ e.message) := by
  refine ⟨?_, ?_, ?_⟩
  · intro e
    simp only [isRetryable, strContains, Bool.or_eq_true, beq_iff_eq,
      decide_eq_true_eq]
    tauto
  · intro provider apiKeySet messages user retryCount e cs htb hnr
    refine generateResponse_of_stop htb ?_
    rintro ⟨h1, -⟩
    rw [hnr] at h1
    exact absurd h1 (by decide)
  · intro e hp1 hp2 hp3 hp4 hp5 hp6 hp7 hp8 hp9
    have hst : (e.status == some 503) = false := by
      rw [beq_eq_false_iff_ne]
      exact hp8
    unfold classifyError
    rw [hp1, hp2, hp3, hp4, hp5, hp6, hp7, hst, hp9]
    simp

/-- C8 witness: an unmatched error surfaces as the catch-all wrapping. -/
theorem C8_witness :
    strContains "boom" "quota" = false ∧
    classifyError ⟨none, none, "boom"⟩ = "Failed to generate response: " ++ "boom" :=
  ⟨by decide,
    C8_retryable_classification.2.2 ⟨none, none, "boom"⟩ (by decide) (by decide)
      (by decide) (by decide) (by decide) (by decide) (by decide) (by decide) (by decide)⟩

end BitBraniac
